import Mathlib

/-
  Verification of the DeepCode Desktop UI (desktop-ui/src) against its
  natural-language specification.

  The TypeScript/React components are shallowly embedded: each event handler
  becomes a pure Lean function from the component's state (plus the outcome of
  any awaited backend call) to the successor state, together with the list of
  outbound calls / UI effects it performs.  Backend calls are modelled by an
  `Except String α` argument: `Except.ok` is a resolved call, `Except.error`
  is a thrown/rejected one.
-/

/- ===================== JavaScript string helpers ===================== -/

/-- JavaScript `String.prototype.trim`: strip leading and trailing whitespace.
Implemented over the character list so that it reduces in the kernel. -/
def jsTrim (s : String) : String :=
  String.mk (((s.data.dropWhile Char.isWhitespace).reverse.dropWhile
    Char.isWhitespace).reverse)

/-- JavaScript `a || b` on strings: the empty string is falsy.  Also models
`x ?? d` / `x || d` applied to a possibly-absent string field. -/
def jsOrString (o : Option String) (d : String) : String :=
  match o with
  | none => d
  | some s => if s = "" then d else s

/- ===================== GuidedAnalysis.tsx ===================== -/

/-- The four wizard steps (enum RequirementAnalysisStep in types/index.ts). -/
inductive RequirementAnalysisStep
  | input
  | questions
  | summary
  | editing
deriving DecidableEq, Repr

/-- Question importance levels (types/index.ts). -/
inductive Importance
  | high
  | medium
  | low
deriving DecidableEq, Repr

/-- Question records produced by the backend (types/index.ts). -/
structure Question where
  question : String
  category : String
  importance : Importance
  hint : Option String
deriving DecidableEq, Repr

/-- The React state of the GuidedAnalysis component: one field per useState
hook (currentStep, initialRequirement, questions, answers,
detailedRequirements, editFeedback, isLoading, error).  The JS answers object
`\x7b [key: string]: string \x7d` is modelled as an association list. -/
structure GuidedState where
  currentStep : RequirementAnalysisStep
  initialRequirement : String
  questions : List Question
  answers : List (String × String)
  detailedRequirements : String
  editFeedback : String
  isLoading : Bool
  error : Option String
deriving DecidableEq, Repr

/-- The initial state of every useState hook of GuidedAnalysis. -/
def initialGuidedState : GuidedState :=
  { currentStep := RequirementAnalysisStep.input
  , initialRequirement := ""
  , questions := []
  , answers := []
  , detailedRequirements := ""
  , editFeedback := ""
  , isLoading := false
  , error := none }

/-- GuidedAnalysis.tsx `handleInitialSubmit`.  Returns the successor state and
the number of `generate_questions` bridge invocations performed.  The backend
call is the `Except` argument; the `finally` clause always ends with
`isLoading = false` whenever the call was reached. -/
def handleInitialSubmit (s : GuidedState)
    (backend : Except String (List Question)) : GuidedState × Nat :=
  if (jsTrim s.initialRequirement).length < 10 then
    ({ s with
        error :=
          some "Please provide at least a brief description (more than 10 characters)" },
      0)
  else
    match backend with
    | Except.ok qs =>
        ({ s with isLoading := false, error := none, questions := qs,
                  currentStep := RequirementAnalysisStep.questions }, 1)
    | Except.error e =>
        ({ s with isLoading := false,
                  error := some ("Failed to generate questions: " ++ e) }, 1)

/-- GuidedAnalysis.tsx `handleApplyEdit`.  Returns the successor state and the
number of `edit_requirements` bridge invocations performed.  The JS guard
`if (!editFeedback.trim())` is the emptiness test on the trimmed feedback. -/
def handleApplyEdit (s : GuidedState)
    (backend : Except String String) : GuidedState × Nat :=
  if jsTrim s.editFeedback = "" then
    ({ s with error := some "Please provide your modification request" }, 0)
  else
    match backend with
    | Except.ok r =>
        ({ s with isLoading := false, error := none, detailedRequirements := r,
                  editFeedback := "",
                  currentStep := RequirementAnalysisStep.summary }, 1)
    | Except.error e =>
        ({ s with isLoading := false,
                  error := some ("Failed to edit requirements: " ++ e) }, 1)

/-- GuidedAnalysis.tsx `handleStartOver`: the seven setter calls it makes. -/
def handleStartOver (s : GuidedState) : GuidedState :=
  { s with currentStep := RequirementAnalysisStep.input
         , initialRequirement := ""
         , questions := []
         , answers := []
         , detailedRequirements := ""
         , editFeedback := ""
         , error := none }

/- ===================== App.tsx progress mapping ===================== -/

/-- App.tsx passes `currentStep = Math.floor(progress / 12.5)` to
ProgressDisplay (line 338). -/
def currentStepIndex (progress : ℚ) : ℤ :=
  Int.floor (progress / 12.5)

/- ===================== App.tsx types and handleSubmit ===================== -/

/-- Input type selector (App.tsx useState inputType). -/
inductive InputType
  | chat
  | url
  | file
deriving DecidableEq, Repr

/-- Task status (App.tsx useState taskStatus). -/
inductive TaskStatus
  | idle
  | processing
  | success
  | error
deriving DecidableEq, Repr

/-- Response status of an ApiResponse (types/index.ts). -/
inductive ResponseStatus
  | success
  | error
deriving DecidableEq, Repr

/-- The repo_result object of an ApiResponse.  types/index.ts declares
`result` and `files`; ResultsDisplay.tsx additionally reads a
`generated_files` key from the runtime object, modelled as optional. -/
structure RepoResult where
  result : String
  files : List String
  generated_files : Option (List String)
deriving DecidableEq, Repr

/-- ApiResponse (types/index.ts). -/
structure ApiResponse where
  status : ResponseStatus
  analysis_result : Option String
  download_result : Option String
  repo_result : Option RepoResult
  error : Option String
  traceback : Option String
deriving DecidableEq, Repr

/-- The selected file of the file input (only its path is used). -/
structure SelectedFile where
  path : String
deriving DecidableEq, Repr

/-- The slice of App.tsx state read or written by handleSubmit. -/
structure AppState where
  inputType : InputType
  textInput : String
  fileInput : Option SelectedFile
  taskStatus : TaskStatus
  apiResult : Option ApiResponse
  showGuidedAnalysis : Bool
  enableIndexing : Bool
deriving DecidableEq, Repr

/-- The JSON body of the POST to /process/text: App.tsx builds an object
literal with exactly these three fields (lines 86-90). -/
structure RequestBody where
  input_source : String
  input_type : InputType
  enable_indexing : Bool
deriving DecidableEq, Repr

/-- UI effects and outbound calls performed by handleSubmit, in program
order: React setter calls, the Tauri bridge invoke, the network POST, and
the synchronous alert. -/
inductive SubmitEvent
  | setTaskStatus (status : TaskStatus)
  | setApiResult (r : Option ApiResponse)
  | setShowGuidedAnalysis (b : Bool)
  | bridgeInvoke (cmd : String) (filePath : String)
  | networkPost (url : String) (body : RequestBody)
  | alertUser (msg : String)
deriving DecidableEq, Repr

/-- `const inputSource = requirements || textInput;` (App.tsx line 74). -/
def effectiveInputSource (requirements : Option String) (textInput : String) :
    String :=
  jsOrString requirements textInput

/-- The ApiResponse built by the catch clause of handleSubmit:
`\x7b status: 'error', error: err.message \x7d`. -/
def errorResponse (msg : String) : ApiResponse :=
  { status := ResponseStatus.error
  , analysis_result := none
  , download_result := none
  , repo_result := none
  , error := some msg
  , traceback := none }

/-- The tail of handleSubmit shared by both call branches: parse the
response, throw when `data.status === 'error'` (with
`data.error || 'An unknown error occurred.'`), otherwise store the result;
the catch clause converts any thrown message into an error-shaped result. -/
def settleResponse (s1 : AppState) (evs : List SubmitEvent)
    (outcome : Except String ApiResponse) : AppState × List SubmitEvent :=
  match outcome with
  | Except.ok data =>
      if data.status = ResponseStatus.error then
        let msg := jsOrString data.error "An unknown error occurred."
        ({ s1 with apiResult := some (errorResponse msg),
                   taskStatus := TaskStatus.error },
          evs ++ [SubmitEvent.setApiResult (some (errorResponse msg)),
                  SubmitEvent.setTaskStatus TaskStatus.error])
      else
        ({ s1 with apiResult := some data, taskStatus := TaskStatus.success },
          evs ++ [SubmitEvent.setApiResult (some data),
                  SubmitEvent.setTaskStatus TaskStatus.success])
  | Except.error msg =>
      ({ s1 with apiResult := some (errorResponse msg),
                 taskStatus := TaskStatus.error },
        evs ++ [SubmitEvent.setApiResult (some (errorResponse msg)),
                SubmitEvent.setTaskStatus TaskStatus.error])

/-- App.tsx `handleSubmit` (lines 69-112).  `requirements` is the optional
argument (`handleSubmit(requirements?)`); `outcome` is the result of the one
outbound call the run performs (ignored when no call is made).  Returns the
final state and the ordered list of effects. -/
def handleSubmit (s : AppState) (requirements : Option String)
    (outcome : Except String ApiResponse) : AppState × List SubmitEvent :=
  let s1 : AppState :=
    { s with taskStatus := TaskStatus.processing, apiResult := none,
             showGuidedAnalysis := false }
  let pre : List SubmitEvent :=
    [SubmitEvent.setTaskStatus TaskStatus.processing,
     SubmitEvent.setApiResult none,
     SubmitEvent.setShowGuidedAnalysis false]
  let inputSource := effectiveInputSource requirements s.textInput
  match s.inputType, s.fileInput with
  | InputType.file, some f =>
      settleResponse s1 (pre ++ [SubmitEvent.bridgeInvoke "process_file" f.path])
        outcome
  | _, _ =>
      if jsTrim inputSource = "" then
        ({ s1 with taskStatus := TaskStatus.idle },
          pre ++ [SubmitEvent.alertUser "Please provide an input.",
                  SubmitEvent.setTaskStatus TaskStatus.idle])
      else
        settleResponse s1
          (pre ++ [SubmitEvent.networkPost "http://localhost:8000/process/text"
            { input_source := inputSource, input_type := s.inputType,
              enable_indexing := s.enableIndexing }])
          outcome

/-- Whether a SubmitEvent is an outbound call (bridge invoke or network
POST) rather than a local UI effect. -/
def isCallEvent : SubmitEvent → Bool
  | SubmitEvent.bridgeInvoke _ _ => true
  | SubmitEvent.networkPost _ _ => true
  | _ => false

/-- The outbound calls among a list of effects. -/
def callsOf (evs : List SubmitEvent) : List SubmitEvent :=
  evs.filter isCallEvent

/- ===================== ResultsDisplay.tsx ===================== -/

/-- The four result tabs; useState initialises activeTab to
'implementation' (ResultsDisplay.tsx line 123). -/
inductive ResultsTab
  | analysis
  | download
  | implementation
  | files
deriving DecidableEq, Repr

/-- The initial value of the activeTab useState hook. -/
def initialActiveTab : ResultsTab := ResultsTab.implementation

/-- What a tab's body renders: a text card (the `pre` block of the
Analysis/Download/Implementation tabs), the list of file rows of the Files
tab, or its "No files generated." paragraph. -/
inductive TabContent
  | textCard (content : String)
  | fileItems (names : List String)
  | noFilesMessage
deriving DecidableEq, Repr

/-- A JSON string literal (escaping of special characters elided; no theorem
depends on the serialised text of a present repo_result). -/
def jsonQuote (s : String) : String := "\"" ++ s ++ "\""

/-- `JSON.stringify(value, null, 2)` of a string list. -/
def jsonStringifyList (l : List String) : String :=
  match l with
  | [] => "[]"
  | _ => "[\n    " ++ String.intercalate ",\n    " (l.map jsonQuote) ++ "\n  ]"

/-- `JSON.stringify(result.repo_result, null, 2)` for a present repo_result
object; an absent optional key is omitted, as JSON.stringify does. -/
def jsonStringifyRepoResult (rr : RepoResult) : String :=
  let genPart :=
    match rr.generated_files with
    | none => ""
    | some gs => ",\n  \"generated_files\": " ++ jsonStringifyList gs
  "\x7b\n  \"result\": " ++ jsonQuote rr.result ++
    ",\n  \"files\": " ++ jsonStringifyList rr.files ++ genPart ++ "\n\x7d"

/-- ResultsDisplay.tsx `renderTabContent` (lines 150-198).  Total in Lean,
so it can never throw.  For the Implementation tab,
`JSON.stringify(undefined)` is `undefined`, so `|| placeholder` shows the
placeholder exactly when repo_result is absent; for the Files tab,
`result.repo_result?.generated_files || []` is the empty list when either
is absent, and each file row shows `file.split('/').pop()`. -/
def renderTabContent (result : ApiResponse) (activeTab : ResultsTab) :
    TabContent :=
  match activeTab with
  | ResultsTab.analysis =>
      TabContent.textCard
        (jsOrString result.analysis_result "No analysis results available.")
  | ResultsTab.download =>
      TabContent.textCard
        (jsOrString result.download_result "No download results available.")
  | ResultsTab.implementation =>
      match result.repo_result with
      | some rr => TabContent.textCard (jsonStringifyRepoResult rr)
      | none => TabContent.textCard "No implementation results available."
  | ResultsTab.files =>
      match (result.repo_result.bind RepoResult.generated_files).getD [] with
      | [] => TabContent.noFilesMessage
      | fs => TabContent.fileItems (fs.map (fun f => (f.splitOn "/").getLastD ""))

/- ===================== Settings.tsx ===================== -/

/-- JS `x || d` on a possibly-absent number, where 0 is falsy (the
size-threshold population in loadConfiguration). -/
def jsOrInt (o : Option Int) (d : Int) : Int :=
  match o with
  | none => d
  | some n => if n = 0 then d else n

/-- config.yaml `document_segmentation` section (Settings.tsx ConfigData). -/
structure DocSeg where
  enabled : Bool
  size_threshold_chars : Int
deriving DecidableEq, Repr

/-- config.yaml `openai` section (Settings.tsx ConfigData): the panel edits
default_model; the optional token fields ride along untouched. -/
structure OpenAIConfig where
  default_model : String
  base_max_tokens : Option Int
  max_tokens_policy : Option String
  retry_max_tokens : Option Int
deriving DecidableEq, Repr

/-- env block of the mcp brave server. -/
structure BraveEnv where
  BRAVE_API_KEY : Option String
deriving DecidableEq, Repr

/-- env block of the mcp bocha-mcp server. -/
structure BochaEnv where
  BOCHA_API_KEY : Option String
deriving DecidableEq, Repr

structure BraveServer where
  env : Option BraveEnv
deriving DecidableEq, Repr

structure BochaServer where
  env : Option BochaEnv
deriving DecidableEq, Repr

/-- `mcp.servers` with the two server entries the panel edits
(`brave` and `bocha-mcp`). -/
structure McpServers where
  brave : Option BraveServer
  bochaMcp : Option BochaServer
deriving DecidableEq, Repr

structure McpConfig where
  servers : Option McpServers
deriving DecidableEq, Repr

/-- The parsed config document: the recognized schema subset plus an opaque
passthrough bag for unrecognized top-level keys (the `[key: string]: any`
index signature), which the object spread and yaml.dump carry through
verbatim. -/
structure ConfigData where
  default_search_server : Option String
  document_segmentation : Option DocSeg
  openai : Option OpenAIConfig
  mcp : Option McpConfig
  extra : List (String × String)
deriving DecidableEq, Repr

/-- secrets.yaml `openai` section. -/
structure OpenAISecrets where
  api_key : String
  base_url : String
deriving DecidableEq, Repr

/-- secrets.yaml `anthropic` section. -/
structure AnthropicSecrets where
  api_key : String
deriving DecidableEq, Repr

/-- The parsed secrets document, with the same passthrough bag. -/
structure SecretsData where
  openai : Option OpenAISecrets
  anthropic : Option AnthropicSecrets
  extra : List (String × String)
deriving DecidableEq, Repr

/-- The panel's form state: one field per useState hook
(Settings.tsx lines 53-62). -/
structure SettingsForm where
  openaiKey : String
  openaiBaseUrl : String
  anthropicKey : String
  braveKey : String
  bochaKey : String
  searchServer : String
  docSegEnabled : Bool
  docSegThreshold : Int
  defaultModel : String
deriving DecidableEq, Repr

/-- The initial values of the form-state hooks. -/
def initialSettingsForm : SettingsForm :=
  { openaiKey := ""
  , openaiBaseUrl := ""
  , anthropicKey := ""
  , braveKey := ""
  , bochaKey := ""
  , searchServer := "brave"
  , docSegEnabled := false
  , docSegThreshold := 50000
  , defaultModel := "anthropic/claude-3.5-sonnet" }

/-- The read path `config.mcp?.servers?.brave?.env?.BRAVE_API_KEY`. -/
def braveKeyOf (c : ConfigData) : Option String :=
  (((c.mcp.bind McpConfig.servers).bind McpServers.brave).bind
    BraveServer.env).bind BraveEnv.BRAVE_API_KEY

/-- The read path for the bocha-mcp key. -/
def bochaKeyOf (c : ConfigData) : Option String :=
  (((c.mcp.bind McpConfig.servers).bind McpServers.bochaMcp).bind
    BochaServer.env).bind BochaEnv.BOCHA_API_KEY

/-- `if (stored truthy) setKey(stored)` — Settings.tsx lines 98-103: the
Brave/Bocha key hooks are assigned only when the stored key is present and
non-empty; otherwise they keep their previous value. -/
def keepOrLoadKey (stored : Option String) (prev : String) : String :=
  match stored with
  | some k => if k = "" then prev else k
  | none => prev

/-- Settings.tsx `loadConfiguration` (lines 70-111): read and parse the two
documents (yaml.load is modelled as the identity on the already-structured
document) and populate the form hooks, with `||` fallbacks to the defaults.
`prev` is the form state before the load (only the Brave/Bocha hooks can
retain it). -/
def loadConfiguration (c : ConfigData) (sec : SecretsData)
    (prev : SettingsForm) : SettingsForm :=
  { searchServer := jsOrString c.default_search_server "brave"
  , docSegEnabled := (c.document_segmentation.map DocSeg.enabled).getD false
  , docSegThreshold :=
      jsOrInt (c.document_segmentation.map DocSeg.size_threshold_chars) 50000
  , defaultModel :=
      jsOrString (c.openai.map OpenAIConfig.default_model)
        "anthropic/claude-3.5-sonnet"
  , openaiKey := (sec.openai.map OpenAISecrets.api_key).getD ""
  , openaiBaseUrl := (sec.openai.map OpenAISecrets.base_url).getD ""
  , anthropicKey := (sec.anthropic.map AnthropicSecrets.api_key).getD ""
  , braveKey := keepOrLoadKey (braveKeyOf c) prev.braveKey
  , bochaKey := keepOrLoadKey (bochaKeyOf c) prev.bochaKey }

/-- Settings.tsx `handleSave` (lines 113-170): overwrite the recognized
fields of copies of both loaded documents with the form values, creating the
document_segmentation / openai / secrets sections when missing, and writing
the Brave/Bocha env keys only when the corresponding mcp server section
exists; then write both serialized documents through the bridge (yaml.dump
and the bridge store are modelled as the identity). -/
def handleSave (c : ConfigData) (sec : SecretsData) (f : SettingsForm) :
    ConfigData × SecretsData :=
  let newConfig : ConfigData :=
    { default_search_server := some f.searchServer
    , document_segmentation :=
        some { enabled := f.docSegEnabled
             , size_threshold_chars := f.docSegThreshold }
    , openai :=
        some (match c.openai with
          | some o => { o with default_model := f.defaultModel }
          | none =>
              { default_model := f.defaultModel
              , base_max_tokens := none
              , max_tokens_policy := none
              , retry_max_tokens := none })
    , mcp := c.mcp.map (fun m =>
        { servers := m.servers.map (fun sv =>
            { brave := sv.brave.map (fun b =>
                let newEnv : BraveEnv :=
                  match b.env with
                  | some en => { en with BRAVE_API_KEY := some f.braveKey }
                  | none => { BRAVE_API_KEY := some f.braveKey }
                { b with env := some newEnv })
            , bochaMcp := sv.bochaMcp.map (fun b =>
                let newEnv : BochaEnv :=
                  match b.env with
                  | some en => { en with BOCHA_API_KEY := some f.bochaKey }
                  | none => { BOCHA_API_KEY := some f.bochaKey }
                { b with env := some newEnv }) }) })
    , extra := c.extra }
  let newSecrets : SecretsData :=
    { openai :=
        some (match sec.openai with
          | some o =>
              { o with api_key := f.openaiKey, base_url := f.openaiBaseUrl }
          | none => { api_key := f.openaiKey, base_url := f.openaiBaseUrl })
    , anthropic := some { api_key := f.anthropicKey }
    , extra := sec.extra }
  (newConfig, newSecrets)

/-- A single edit of one recognized form field between load and save. -/
inductive SettingsEdit
  | setOpenaiKey (v : String)
  | setOpenaiBaseUrl (v : String)
  | setAnthropicKey (v : String)
  | setBraveKey (v : String)
  | setBochaKey (v : String)
  | setSearchServer (v : String)
  | setDocSegEnabled (v : Bool)
  | setDocSegThreshold (v : Int)
  | setDefaultModel (v : String)
deriving DecidableEq, Repr

/-- Apply one form-field edit. -/
def applyEdit : SettingsEdit → SettingsForm → SettingsForm
  | SettingsEdit.setOpenaiKey v, f => { f with openaiKey := v }
  | SettingsEdit.setOpenaiBaseUrl v, f => { f with openaiBaseUrl := v }
  | SettingsEdit.setAnthropicKey v, f => { f with anthropicKey := v }
  | SettingsEdit.setBraveKey v, f => { f with braveKey := v }
  | SettingsEdit.setBochaKey v, f => { f with bochaKey := v }
  | SettingsEdit.setSearchServer v, f => { f with searchServer := v }
  | SettingsEdit.setDocSegEnabled v, f => { f with docSegEnabled := v }
  | SettingsEdit.setDocSegThreshold v, f => { f with docSegThreshold := v }
  | SettingsEdit.setDefaultModel v, f => { f with defaultModel := v }

/-- An edited value is valid when it is not a JS-falsy value that the next
load would silently replace with a default: the UI's select/number inputs
only produce such values. -/
def editValid : SettingsEdit → Prop
  | SettingsEdit.setSearchServer v => v ≠ ""
  | SettingsEdit.setDocSegThreshold v => v ≠ 0
  | SettingsEdit.setDefaultModel v => v ≠ ""
  | _ => True

/-- The save step of the round-trip scenario of the spec: open the panel
(loading both documents into a fresh form), apply one edit, save. -/
def savedDocs (c : ConfigData) (sec : SecretsData) (e : SettingsEdit) :
    ConfigData × SecretsData :=
  handleSave c sec (applyEdit e (loadConfiguration c sec initialSettingsForm))

/- ===================== concrete sample states ===================== -/

/-- A wizard state whose trimmed initial requirement has 9 < 10 characters. -/
def shortReqState : GuidedState :=
  { initialGuidedState with initialRequirement := "too short" }

/-- A wizard state sitting at the Editing step with pending edit feedback. -/
def editingState : GuidedState :=
  { initialGuidedState with
      currentStep := RequirementAnalysisStep.editing
    , detailedRequirements := "The system shall parse documents."
    , editFeedback := "add user authentication" }

/-- A wizard state at the Editing step with blank edit feedback. -/
def blankFeedbackState : GuidedState :=
  { editingState with editFeedback := "  " }

/-- A successful ApiResponse with every optional field absent. -/
def emptySuccessResponse : ApiResponse :=
  { status := ResponseStatus.success
  , analysis_result := none
  , download_result := none
  , repo_result := none
  , error := none
  , traceback := none }

/-- An idle app state with chat input text entered. -/
def sampleChatState : AppState :=
  { inputType := InputType.chat
  , textInput := "build a web app"
  , fileInput := none
  , taskStatus := TaskStatus.idle
  , apiResult := none
  , showGuidedAnalysis := false
  , enableIndexing := true }

/-- An app state with file input selected and a file chosen. -/
def sampleFileState : AppState :=
  { sampleChatState with
      inputType := InputType.file
    , textInput := ""
    , fileInput := some { path := "/tmp/paper.pdf" } }

/-- An app state with whitespace-only text, no file, and a stale previous
result still stored. -/
def sampleEmptyState : AppState :=
  { sampleChatState with
      textInput := "   "
    , apiResult := some emptySuccessResponse }

/-- An app state with file input selected, no file chosen, but text present. -/
def sampleFileNoFileState : AppState :=
  { sampleChatState with
      inputType := InputType.file
    , textInput := "https://example.com/paper.pdf" }

/-- A config document whose present document_segmentation section carries the
JS-falsy threshold 0. -/
def zeroThresholdConfig : ConfigData :=
  { default_search_server := some "brave"
  , document_segmentation := some { enabled := true, size_threshold_chars := 0 }
  , openai := none
  , mcp := none
  , extra := [] }

/-- A secrets document with no recognized sections. -/
def plainSecrets : SecretsData :=
  { openai := none
  , anthropic := none
  , extra := [] }

/-- The brave server entry of the sample config. -/
def sampleBraveServer : BraveServer :=
  { env := some { BRAVE_API_KEY := some "bk-123" } }

/-- The mcp section of the sample config. -/
def sampleMcp : McpConfig :=
  { servers := some { brave := some sampleBraveServer, bochaMcp := none } }

/-- A config document with every recognized section present and non-falsy,
plus an unrecognized top-level key. -/
def sampleConfig : ConfigData :=
  { default_search_server := some "brave"
  , document_segmentation :=
      some { enabled := true, size_threshold_chars := 40000 }
  , openai :=
      some { default_model := "anthropic/claude-3.5-sonnet"
           , base_max_tokens := some 8192
           , max_tokens_policy := none
           , retry_max_tokens := none }
  , mcp := some sampleMcp
  , extra := [("custom_section", "custom_value")] }

/-- A secrets document with both recognized sections present, plus an
unrecognized top-level key. -/
def sampleSecrets : SecretsData :=
  { openai :=
      some { api_key := "sk-abc", base_url := "https://api.openai.com/v1" }
  , anthropic := some { api_key := "sk-ant-xyz" }
  , extra := [("other_key", "other_value")] }

/- ===================== theorems ===================== -/

/-- Claim C2: when the trimmed initial requirement is shorter than 10
characters, `handleInitialSubmit` performs zero `generate_questions` calls,
leaves the step at Input, sets the inline error message, and leaves the
entered text untouched. -/
theorem C2_guided_input_gate (s : GuidedState)
    (backend : Except String (List Question))
    (hstep : s.currentStep = RequirementAnalysisStep.input)
    (hlen : (jsTrim s.initialRequirement).length < 10) :
    (handleInitialSubmit s backend).2 = 0 ∧
    (handleInitialSubmit s backend).1.currentStep = RequirementAnalysisStep.input ∧
    (handleInitialSubmit s backend).1.error =
      some "Please provide at least a brief description (more than 10 characters)" ∧
    (handleInitialSubmit s backend).1.initialRequirement = s.initialRequirement := by
  simp [handleInitialSubmit, hlen, hstep]

/-- Witness for C2 at the concrete state `shortReqState`. -/
theorem C2_guided_input_gate_witness :
    (handleInitialSubmit shortReqState (Except.ok [])).2 = 0 ∧
    (handleInitialSubmit shortReqState (Except.ok [])).1.currentStep =
      RequirementAnalysisStep.input ∧
    (handleInitialSubmit shortReqState (Except.ok [])).1.error =
      some "Please provide at least a brief description (more than 10 characters)" ∧
    (handleInitialSubmit shortReqState (Except.ok [])).1.initialRequirement =
      shortReqState.initialRequirement :=
  C2_guided_input_gate shortReqState (Except.ok []) rfl (by decide)

/-- Claim C5: `handleStartOver`, from any state, resets the step to Input and
clears the initial requirement, questions, answers, detailed requirements,
edit feedback, and error message — exactly the empty values of the initial
wizard state. -/
theorem C5_start_over_reset (s : GuidedState) :
    (handleStartOver s).currentStep = initialGuidedState.currentStep ∧
    (handleStartOver s).initialRequirement = initialGuidedState.initialRequirement ∧
    (handleStartOver s).questions = initialGuidedState.questions ∧
    (handleStartOver s).answers = initialGuidedState.answers ∧
    (handleStartOver s).detailedRequirements = initialGuidedState.detailedRequirements ∧
    (handleStartOver s).editFeedback = initialGuidedState.editFeedback ∧
    (handleStartOver s).error = initialGuidedState.error :=
  ⟨rfl, rfl, rfl, rfl, rfl, rfl, rfl⟩

/-- Claim C6: `handleApplyEdit` with blank trimmed feedback makes no backend
call and only sets an error; on a successful `edit_requirements` call it
stores the response as the requirements, clears the feedback, and moves to
Summary; on a failed call it stays at Editing with an error banner, leaving
feedback and requirements unchanged. -/
theorem C6_apply_edit_behavior (s : GuidedState) (r e : String) :
    (jsTrim s.editFeedback = "" →
      handleApplyEdit s (Except.ok r) =
        ({ s with error := some "Please provide your modification request" }, 0) ∧
      handleApplyEdit s (Except.error e) =
        ({ s with error := some "Please provide your modification request" }, 0)) ∧
    (jsTrim s.editFeedback ≠ "" →
      (handleApplyEdit s (Except.ok r)).1.detailedRequirements = r ∧
      (handleApplyEdit s (Except.ok r)).1.editFeedback = "" ∧
      (handleApplyEdit s (Except.ok r)).1.currentStep =
        RequirementAnalysisStep.summary ∧
      (handleApplyEdit s (Except.ok r)).2 = 1) ∧
    (jsTrim s.editFeedback ≠ "" → s.currentStep = RequirementAnalysisStep.editing →
      (handleApplyEdit s (Except.error e)).1.currentStep =
        RequirementAnalysisStep.editing ∧
      (handleApplyEdit s (Except.error e)).1.error =
        some ("Failed to edit requirements: " ++ e) ∧
      (handleApplyEdit s (Except.error e)).1.editFeedback = s.editFeedback ∧
      (handleApplyEdit s (Except.error e)).1.detailedRequirements =
        s.detailedRequirements ∧
      (handleApplyEdit s (Except.error e)).2 = 1) := by
  refine ⟨fun h => ?_, fun h => ?_, fun h hstep => ?_⟩
  · simp [handleApplyEdit, h]
  · simp [handleApplyEdit, h]
  · simp [handleApplyEdit, h, hstep]

/-- Witness for C6 at the concrete states `blankFeedbackState` and
`editingState`. -/
theorem C6_apply_edit_behavior_witness :
    (handleApplyEdit blankFeedbackState (Except.ok "new requirements") =
      ({ blankFeedbackState with
          error := some "Please provide your modification request" }, 0)) ∧
    (handleApplyEdit editingState (Except.ok "new requirements")).1.detailedRequirements =
      "new requirements" ∧
    (handleApplyEdit editingState (Except.ok "new requirements")).1.editFeedback = "" ∧
    (handleApplyEdit editingState (Except.error "boom")).1.currentStep =
      RequirementAnalysisStep.editing ∧
    (handleApplyEdit editingState (Except.error "boom")).1.editFeedback =
      editingState.editFeedback :=
  ⟨((C6_apply_edit_behavior blankFeedbackState "new requirements" "boom").1
      (by decide)).1,
   ((C6_apply_edit_behavior editingState "new requirements" "boom").2.1
      (by decide)).1,
   ((C6_apply_edit_behavior editingState "new requirements" "boom").2.1
      (by decide)).2.1,
   ((C6_apply_edit_behavior editingState "new requirements" "boom").2.2
      (by decide) rfl).1,
   ((C6_apply_edit_behavior editingState "new requirements" "boom").2.2
      (by decide) rfl).2.2.1⟩

/-- Claim C4: the displayed stage index is `Math.floor(progress / 12.5)`,
which on natural progress values agrees with natural floor division
`(2 * p) / 25`; in particular 0, 12, 50, 87, 100 map to 0, 0, 4, 6, 8. -/
theorem C4_progress_stage_mapping :
    (∀ p : ℕ, currentStepIndex p = ((2 * p) / 25 : ℕ)) ∧
    currentStepIndex 0 = 0 ∧
    currentStepIndex 12 = 0 ∧
    currentStepIndex 50 = 4 ∧
    currentStepIndex 87 = 6 ∧
    currentStepIndex 100 = 8 := by
  have key : ∀ p : ℕ, currentStepIndex p = ((2 * p) / 25 : ℕ) := by
    intro p
    have hrw : ((p : ℚ)) / 12.5 = (((2 * p : ℕ) : ℚ)) / ((25 : ℕ) : ℚ) := by
      push_cast
      ring
    rw [currentStepIndex, hrw, Rat.floor_natCast_div_natCast, Int.natCast_div]
  refine ⟨key, ?_, ?_, ?_, ?_, ?_⟩
  · simpa using key 0
  · simpa using key 12
  · simpa using key 50
  · simpa using key 87
  · simpa using key 100

/-- The outbound calls of `settleResponse` are those of the effect list it
was given: response handling performs no further call. -/
theorem filter_calls_settleResponse (s1 : AppState) (evs : List SubmitEvent)
    (outcome : Except String ApiResponse) :
    List.filter isCallEvent (settleResponse s1 evs outcome).2 =
      List.filter isCallEvent evs := by
  cases outcome with
  | ok data =>
      by_cases h : data.status = ResponseStatus.error <;>
        simp [settleResponse, h, isCallEvent]
  | error msg =>
      simp [settleResponse, isCallEvent]

/-- The first three effects of `settleResponse` are the first three it was
handed: it only appends. -/
theorem settleResponse_take_three (s1 : AppState) (a b c : SubmitEvent)
    (l : List SubmitEvent) (outcome : Except String ApiResponse) :
    (settleResponse s1 (a :: b :: c :: l) outcome).2.take 3 = [a, b, c] := by
  cases outcome with
  | ok data =>
      by_cases h : data.status = ResponseStatus.error <;>
        simp [settleResponse, h]
  | error msg =>
      simp [settleResponse]

/-- Claim C1: for a chat/url submission with non-empty trimmed effective
text, handleSubmit performs exactly one outbound call, a network POST to
/process/text whose body has exactly the fields input_source, input_type and
enable_indexing (the `RequestBody` record), and no bridge call; for a file
submission with a selected file it performs exactly one outbound call, the
`process_file` bridge invoke, and no network call. -/
theorem C1_submission_dispatch (s : AppState) (req : Option String)
    (outcome : Except String ApiResponse) (f : SelectedFile) :
    ((s.inputType = InputType.chat ∨ s.inputType = InputType.url) →
      jsTrim (effectiveInputSource req s.textInput) ≠ "" →
      callsOf (handleSubmit s req outcome).2 =
        [SubmitEvent.networkPost "http://localhost:8000/process/text"
          { input_source := effectiveInputSource req s.textInput
          , input_type := s.inputType
          , enable_indexing := s.enableIndexing }]) ∧
    (s.inputType = InputType.file → s.fileInput = some f →
      callsOf (handleSubmit s req outcome).2 =
        [SubmitEvent.bridgeInvoke "process_file" f.path]) := by
  obtain ⟨it, ti, fi, ts, ar, sg, ei⟩ := s
  constructor
  · intro hty hne
    simp only at hty hne ⊢
    cases fi <;> rcases hty with h | h <;> subst h <;>
      simp [handleSubmit, hne, callsOf, filter_calls_settleResponse, isCallEvent]
  · intro hty hfi
    simp only at hty hfi ⊢
    subst hty
    subst hfi
    simp [handleSubmit, callsOf, filter_calls_settleResponse, isCallEvent]

/-- Witness for C1 at the concrete states `sampleChatState` and
`sampleFileState`. -/
theorem C1_submission_dispatch_witness :
    callsOf (handleSubmit sampleChatState none (Except.ok emptySuccessResponse)).2 =
      [SubmitEvent.networkPost "http://localhost:8000/process/text"
        { input_source := "build a web app"
        , input_type := InputType.chat
        , enable_indexing := true }] ∧
    callsOf (handleSubmit sampleFileState none (Except.ok emptySuccessResponse)).2 =
      [SubmitEvent.bridgeInvoke "process_file" "/tmp/paper.pdf"] :=
  ⟨(C1_submission_dispatch sampleChatState none (Except.ok emptySuccessResponse)
      ⟨"/tmp/paper.pdf"⟩).1 (Or.inl rfl) (by decide),
   (C1_submission_dispatch sampleFileState none (Except.ok emptySuccessResponse)
      ⟨"/tmp/paper.pdf"⟩).2 rfl rfl⟩

/-- Claim C8: with empty trimmed text and no file selected, handleSubmit
performs no outbound call, alerts "Please provide an input." synchronously,
and returns the task status to idle; the full effect list is the three
pre-dispatch setters, the alert, and the idle reset. -/
theorem C8_empty_input_rejection (s : AppState)
    (outcome : Except String ApiResponse)
    (htext : jsTrim s.textInput = "") (hfile : s.fileInput = none) :
    (handleSubmit s none outcome).2 =
      [SubmitEvent.setTaskStatus TaskStatus.processing,
       SubmitEvent.setApiResult none,
       SubmitEvent.setShowGuidedAnalysis false,
       SubmitEvent.alertUser "Please provide an input.",
       SubmitEvent.setTaskStatus TaskStatus.idle] ∧
    callsOf (handleSubmit s none outcome).2 = [] ∧
    (handleSubmit s none outcome).1.taskStatus = TaskStatus.idle := by
  obtain ⟨it, ti, fi, ts, ar, sg, ei⟩ := s
  simp only at htext hfile ⊢
  subst hfile
  cases it <;>
    simp [handleSubmit, effectiveInputSource, jsOrString, htext, callsOf,
      isCallEvent]

/-- Witness for C8 at the concrete state `sampleEmptyState`. -/
theorem C8_empty_input_rejection_witness :
    (handleSubmit sampleEmptyState none (Except.ok emptySuccessResponse)).2 =
      [SubmitEvent.setTaskStatus TaskStatus.processing,
       SubmitEvent.setApiResult none,
       SubmitEvent.setShowGuidedAnalysis false,
       SubmitEvent.alertUser "Please provide an input.",
       SubmitEvent.setTaskStatus TaskStatus.idle] ∧
    callsOf (handleSubmit sampleEmptyState none (Except.ok emptySuccessResponse)).2 = [] ∧
    (handleSubmit sampleEmptyState none (Except.ok emptySuccessResponse)).1.taskStatus =
      TaskStatus.idle :=
  C8_empty_input_rejection sampleEmptyState (Except.ok emptySuccessResponse)
    (by decide) rfl

/-- Claim C9: with input type file, no file selected, and non-empty trimmed
text, handleSubmit falls through to the text branch and performs exactly one
network POST to /process/text carrying input_type file. -/
theorem C9_file_type_text_fallback (s : AppState)
    (outcome : Except String ApiResponse)
    (hty : s.inputType = InputType.file) (hfile : s.fileInput = none)
    (htext : jsTrim s.textInput ≠ "") :
    callsOf (handleSubmit s none outcome).2 =
      [SubmitEvent.networkPost "http://localhost:8000/process/text"
        { input_source := s.textInput
        , input_type := InputType.file
        , enable_indexing := s.enableIndexing }] := by
  obtain ⟨it, ti, fi, ts, ar, sg, ei⟩ := s
  simp only at hty hfile htext ⊢
  subst hty
  subst hfile
  simp [handleSubmit, effectiveInputSource, jsOrString, htext, callsOf,
    filter_calls_settleResponse, isCallEvent]

/-- Witness for C9 at the concrete state `sampleFileNoFileState`. -/
theorem C9_file_type_text_fallback_witness :
    callsOf (handleSubmit sampleFileNoFileState none
        (Except.ok emptySuccessResponse)).2 =
      [SubmitEvent.networkPost "http://localhost:8000/process/text"
        { input_source := "https://example.com/paper.pdf"
        , input_type := InputType.file
        , enable_indexing := true }] :=
  C9_file_type_text_fallback sampleFileNoFileState
    (Except.ok emptySuccessResponse) rfl rfl (by decide)

/-- Claim C10: every handleSubmit run begins with the three pre-dispatch
effects — set task status to processing, clear the stored result, hide the
guided panel — before any validation, alert, or outbound call; consequently
a run rejected for empty input ends with no stored result and idle status. -/
theorem C10_pre_dispatch_reset (s : AppState) (req : Option String)
    (outcome : Except String ApiResponse) :
    (handleSubmit s req outcome).2.take 3 =
      [SubmitEvent.setTaskStatus TaskStatus.processing,
       SubmitEvent.setApiResult none,
       SubmitEvent.setShowGuidedAnalysis false] ∧
    (¬(s.inputType = InputType.file ∧ s.fileInput.isSome) →
      jsTrim (effectiveInputSource req s.textInput) = "" →
      (handleSubmit s req outcome).1.apiResult = none ∧
      (handleSubmit s req outcome).1.taskStatus = TaskStatus.idle) := by
  obtain ⟨it, ti, fi, ts, ar, sg, ei⟩ := s
  constructor
  · cases it <;> cases fi <;>
      simp only [handleSubmit, List.cons_append, List.nil_append] <;>
        (try split) <;>
          first
            | rfl
            | exact settleResponse_take_three _ _ _ _ _ outcome
  · intro hnot hempty
    cases it <;> cases fi
    · simp [handleSubmit, hempty]
    · simp [handleSubmit, hempty]
    · simp [handleSubmit, hempty]
    · simp [handleSubmit, hempty]
    · simp [handleSubmit, hempty]
    · exact absurd ⟨rfl, rfl⟩ hnot

/-- Witness for C10 at the concrete state `sampleEmptyState`, whose stale
stored result is discarded by the rejected run. -/
theorem C10_pre_dispatch_reset_witness :
    (handleSubmit sampleEmptyState none (Except.ok emptySuccessResponse)).2.take 3 =
      [SubmitEvent.setTaskStatus TaskStatus.processing,
       SubmitEvent.setApiResult none,
       SubmitEvent.setShowGuidedAnalysis false] ∧
    (handleSubmit sampleEmptyState none (Except.ok emptySuccessResponse)).1.apiResult =
      none ∧
    (handleSubmit sampleEmptyState none (Except.ok emptySuccessResponse)).1.taskStatus =
      TaskStatus.idle :=
  ⟨(C10_pre_dispatch_reset sampleEmptyState none (Except.ok emptySuccessResponse)).1,
   ((C10_pre_dispatch_reset sampleEmptyState none (Except.ok emptySuccessResponse)).2
      (by decide) (by decide)).1,
   ((C10_pre_dispatch_reset sampleEmptyState none (Except.ok emptySuccessResponse)).2
      (by decide) (by decide)).2⟩

/-- Claim C7: for a success ApiResponse with every optional field absent,
each of the four tabs renders its literal placeholder (the renderer is a
total function, so rendering never throws), and the default selected tab is
Implementation. -/
theorem C7_results_placeholders :
    renderTabContent emptySuccessResponse ResultsTab.analysis =
      TabContent.textCard "No analysis results available." ∧
    renderTabContent emptySuccessResponse ResultsTab.download =
      TabContent.textCard "No download results available." ∧
    renderTabContent emptySuccessResponse ResultsTab.implementation =
      TabContent.textCard "No implementation results available." ∧
    renderTabContent emptySuccessResponse ResultsTab.files =
      TabContent.noFilesMessage ∧
    initialActiveTab = ResultsTab.implementation :=
  ⟨rfl, rfl, rfl, rfl, rfl⟩

/-- `jsOrString` never returns the empty string when its default is
non-empty. -/
theorem jsOrString_ne (o : Option String) (d : String) (hd : d ≠ "") :
    jsOrString o d ≠ "" := by
  cases o with
  | none => simpa [jsOrString] using hd
  | some s => by_cases h : s = "" <;> simp [jsOrString, h, hd]

/-- `jsOrInt` never returns 0 when its default is non-zero. -/
theorem jsOrInt_ne (o : Option Int) (d : Int) (hd : d ≠ 0) :
    jsOrInt o d ≠ 0 := by
  cases o with
  | none => simpa [jsOrInt] using hd
  | some n => by_cases h : n = 0 <;> simp [jsOrInt, h, hd]

/-- Loading a key equal to (or absent relative to) the current hook value
leaves the hook unchanged. -/
theorem keepOrLoadKey_self (stored : Option String) (p : String)
    (h : stored = none ∨ stored = some p) : keepOrLoadKey stored p = p := by
  rcases h with rfl | rfl
  · rfl
  · by_cases h2 : p = "" <;> simp [keepOrLoadKey, h2]

/-- After a save, the stored Brave key is either still absent (no brave
server section) or exactly the form's Brave key. -/
theorem braveKeyOf_handleSave (c : ConfigData) (sec : SecretsData)
    (f : SettingsForm) :
    braveKeyOf (handleSave c sec f).1 = none ∨
    braveKeyOf (handleSave c sec f).1 = some f.braveKey := by
  cases hm : c.mcp with
  | none => left; simp [handleSave, braveKeyOf, hm]
  | some m =>
      cases hs : m.servers with
      | none => left; simp [handleSave, braveKeyOf, hm, hs]
      | some sv =>
          cases hb : sv.brave with
          | none => left; simp [handleSave, braveKeyOf, hm, hs, hb]
          | some b =>
              right
              cases he : b.env <;>
                simp [handleSave, braveKeyOf, hm, hs, hb, he]

/-- After a save, the stored Bocha key is either still absent or exactly the
form's Bocha key. -/
theorem bochaKeyOf_handleSave (c : ConfigData) (sec : SecretsData)
    (f : SettingsForm) :
    bochaKeyOf (handleSave c sec f).1 = none ∨
    bochaKeyOf (handleSave c sec f).1 = some f.bochaKey := by
  cases hm : c.mcp with
  | none => left; simp [handleSave, bochaKeyOf, hm]
  | some m =>
      cases hs : m.servers with
      | none => left; simp [handleSave, bochaKeyOf, hm, hs]
      | some sv =>
          cases hb : sv.bochaMcp with
          | none => left; simp [handleSave, bochaKeyOf, hm, hs, hb]
          | some b =>
              right
              cases he : b.env <;>
                simp [handleSave, bochaKeyOf, hm, hs, hb, he]

/-- Reloading immediately after a save reproduces the saved form exactly,
provided the three form fields that the loader `||`-defaults are not falsy
(the selects and the number input of the panel only produce such values). -/
theorem reload_after_save (c : ConfigData) (sec : SecretsData)
    (f : SettingsForm) (h1 : f.searchServer ≠ "") (h2 : f.docSegThreshold ≠ 0)
    (h3 : f.defaultModel ≠ "") :
    loadConfiguration (handleSave c sec f).1 (handleSave c sec f).2 f = f := by
  have hbr := braveKeyOf_handleSave c sec f
  have hbo := bochaKeyOf_handleSave c sec f
  obtain ⟨fok, fob, fak, fbk, fbo, fss, fde, fdt, fdm⟩ := f
  simp only at h1 h2 h3 hbr hbo
  simp only [loadConfiguration]
  rw [keepOrLoadKey_self _ _ hbr, keepOrLoadKey_self _ _ hbo]
  obtain ⟨dss, dseg, oai, mcp, cex⟩ := c
  obtain ⟨soa, san, sex⟩ := sec
  cases oai <;> cases soa <;>
    simp [handleSave, jsOrString, jsOrInt, h1, h2, h3]

/-- An edit that is not a search-server edit leaves that form field alone. -/
theorem applyEdit_ne_searchServer (e : SettingsEdit) (f : SettingsForm)
    (h : ∀ w, e ≠ SettingsEdit.setSearchServer w) :
    (applyEdit e f).searchServer = f.searchServer := by
  cases e <;> first | exact absurd rfl (h _) | simp [applyEdit]

/-- An edit that is not a segmentation-toggle edit leaves that field alone. -/
theorem applyEdit_ne_docSegEnabled (e : SettingsEdit) (f : SettingsForm)
    (h : ∀ w, e ≠ SettingsEdit.setDocSegEnabled w) :
    (applyEdit e f).docSegEnabled = f.docSegEnabled := by
  cases e <;> first | exact absurd rfl (h _) | simp [applyEdit]

/-- An edit that is not a threshold edit leaves that field alone. -/
theorem applyEdit_ne_docSegThreshold (e : SettingsEdit) (f : SettingsForm)
    (h : ∀ w, e ≠ SettingsEdit.setDocSegThreshold w) :
    (applyEdit e f).docSegThreshold = f.docSegThreshold := by
  cases e <;> first | exact absurd rfl (h _) | simp [applyEdit]

/-- An edit that is not a default-model edit leaves that field alone. -/
theorem applyEdit_ne_defaultModel (e : SettingsEdit) (f : SettingsForm)
    (h : ∀ w, e ≠ SettingsEdit.setDefaultModel w) :
    (applyEdit e f).defaultModel = f.defaultModel := by
  cases e <;> first | exact absurd rfl (h _) | simp [applyEdit]

/-- An edit that is not a Brave-key edit leaves that field alone. -/
theorem applyEdit_ne_braveKey (e : SettingsEdit) (f : SettingsForm)
    (h : ∀ w, e ≠ SettingsEdit.setBraveKey w) :
    (applyEdit e f).braveKey = f.braveKey := by
  cases e <;> first | exact absurd rfl (h _) | simp [applyEdit]

/-- An edit that is not a Bocha-key edit leaves that field alone. -/
theorem applyEdit_ne_bochaKey (e : SettingsEdit) (f : SettingsForm)
    (h : ∀ w, e ≠ SettingsEdit.setBochaKey w) :
    (applyEdit e f).bochaKey = f.bochaKey := by
  cases e <;> first | exact absurd rfl (h _) | simp [applyEdit]

/-- An edit that is not an OpenAI-key edit leaves that field alone. -/
theorem applyEdit_ne_openaiKey (e : SettingsEdit) (f : SettingsForm)
    (h : ∀ w, e ≠ SettingsEdit.setOpenaiKey w) :
    (applyEdit e f).openaiKey = f.openaiKey := by
  cases e <;> first | exact absurd rfl (h _) | simp [applyEdit]

/-- An edit that is not a base-URL edit leaves that field alone. -/
theorem applyEdit_ne_openaiBaseUrl (e : SettingsEdit) (f : SettingsForm)
    (h : ∀ w, e ≠ SettingsEdit.setOpenaiBaseUrl w) :
    (applyEdit e f).openaiBaseUrl = f.openaiBaseUrl := by
  cases e <;> first | exact absurd rfl (h _) | simp [applyEdit]

/-- An edit that is not an Anthropic-key edit leaves that field alone. -/
theorem applyEdit_ne_anthropicKey (e : SettingsEdit) (f : SettingsForm)
    (h : ∀ w, e ≠ SettingsEdit.setAnthropicKey w) :
    (applyEdit e f).anthropicKey = f.anthropicKey := by
  cases e <;> first | exact absurd rfl (h _) | simp [applyEdit]

/-- After loading and applying a valid edit, the search-server field is
never the empty string. -/
theorem editedForm_searchServer_ne (c : ConfigData) (sec : SecretsData)
    (prev : SettingsForm) (e : SettingsEdit) (he : editValid e) :
    (applyEdit e (loadConfiguration c sec prev)).searchServer ≠ "" := by
  cases e <;>
    first
      | simpa [applyEdit, editValid] using he
      | (simp only [applyEdit, loadConfiguration]
         exact jsOrString_ne _ _ (by decide))

/-- After loading and applying a valid edit, the threshold field is never 0. -/
theorem editedForm_threshold_ne (c : ConfigData) (sec : SecretsData)
    (prev : SettingsForm) (e : SettingsEdit) (he : editValid e) :
    (applyEdit e (loadConfiguration c sec prev)).docSegThreshold ≠ 0 := by
  cases e <;>
    first
      | simpa [applyEdit, editValid] using he
      | (simp only [applyEdit, loadConfiguration]
         exact jsOrInt_ne _ _ (by decide))

/-- After loading and applying a valid edit, the default-model field is
never the empty string. -/
theorem editedForm_model_ne (c : ConfigData) (sec : SecretsData)
    (prev : SettingsForm) (e : SettingsEdit) (he : editValid e) :
    (applyEdit e (loadConfiguration c sec prev)).defaultModel ≠ "" := by
  cases e <;>
    first
      | simpa [applyEdit, editValid] using he
      | (simp only [applyEdit, loadConfiguration]
         exact jsOrString_ne _ _ (by decide))

/-- Claim C3 (amended): for loaded documents whose recognized
`||`-defaulted fields are non-falsy where present (non-empty
default_search_server, non-zero size_threshold_chars, non-empty
default_model), editing one recognized field with a non-falsy value and
saving then reloading yields exactly the edited form back (the new value
for the edited field), preserves the unknown top-level keys of both
documents verbatim, and leaves every other recognized field that was
present in the originally loaded documents unchanged in the saved
documents. -/
theorem C3_settings_roundtrip_amended (c : ConfigData) (sec : SecretsData)
    (e : SettingsEdit)
    (hss : ∀ v, c.default_search_server = some v → v ≠ "")
    (hth : ∀ d, c.document_segmentation = some d → d.size_threshold_chars ≠ 0)
    (hdm : ∀ o, c.openai = some o → o.default_model ≠ "")
    (he : editValid e) :
    loadConfiguration (savedDocs c sec e).1 (savedDocs c sec e).2
        (applyEdit e (loadConfiguration c sec initialSettingsForm)) =
      applyEdit e (loadConfiguration c sec initialSettingsForm) ∧
    (savedDocs c sec e).1.extra = c.extra ∧
    (savedDocs c sec e).2.extra = sec.extra ∧
    (∀ v, c.default_search_server = some v →
      (∀ w, e ≠ SettingsEdit.setSearchServer w) →
      (savedDocs c sec e).1.default_search_server = some v) ∧
    (∀ d, c.document_segmentation = some d →
      (∀ w, e ≠ SettingsEdit.setDocSegEnabled w) →
      (∀ w, e ≠ SettingsEdit.setDocSegThreshold w) →
      (savedDocs c sec e).1.document_segmentation = some d) ∧
    (∀ o, c.openai = some o →
      (∀ w, e ≠ SettingsEdit.setDefaultModel w) →
      (savedDocs c sec e).1.openai = some o) ∧
    (∀ k, braveKeyOf c = some k →
      (∀ w, e ≠ SettingsEdit.setBraveKey w) →
      braveKeyOf (savedDocs c sec e).1 = some k) ∧
    (∀ k, bochaKeyOf c = some k →
      (∀ w, e ≠ SettingsEdit.setBochaKey w) →
      bochaKeyOf (savedDocs c sec e).1 = some k) ∧
    (∀ o, sec.openai = some o →
      (∀ w, e ≠ SettingsEdit.setOpenaiKey w) →
      (∀ w, e ≠ SettingsEdit.setOpenaiBaseUrl w) →
      (savedDocs c sec e).2.openai = some o) ∧
    (∀ a, sec.anthropic = some a →
      (∀ w, e ≠ SettingsEdit.setAnthropicKey w) →
      (savedDocs c sec e).2.anthropic = some a) := by
  refine ⟨?_, rfl, rfl, ?_, ?_, ?_, ?_, ?_, ?_, ?_⟩
  · exact reload_after_save c sec _
      (editedForm_searchServer_ne c sec initialSettingsForm e he)
      (editedForm_threshold_ne c sec initialSettingsForm e he)
      (editedForm_model_ne c sec initialSettingsForm e he)
  · intro v hv hne
    have hpr :=
      applyEdit_ne_searchServer e (loadConfiguration c sec initialSettingsForm)
        hne
    simp only [savedDocs, handleSave]
    rw [hpr]
    simp only [loadConfiguration]
    rw [hv]
    simp [jsOrString, hss v hv]
  · intro d hv hne1 hne2
    have hp1 :=
      applyEdit_ne_docSegEnabled e (loadConfiguration c sec initialSettingsForm)
        hne1
    have hp2 :=
      applyEdit_ne_docSegThreshold e
        (loadConfiguration c sec initialSettingsForm) hne2
    have hth2 : d.size_threshold_chars ≠ 0 := hth d hv
    obtain ⟨den, dth⟩ := d
    simp only at hv hth2
    simp only [savedDocs, handleSave]
    rw [hp1, hp2]
    simp only [loadConfiguration]
    rw [hv]
    simp [jsOrInt, hth2]
  · intro o hv hne
    have hp :=
      applyEdit_ne_defaultModel e (loadConfiguration c sec initialSettingsForm)
        hne
    have hdm2 : o.default_model ≠ "" := hdm o hv
    obtain ⟨odm, obm, omp, ort⟩ := o
    simp only at hv hdm2
    simp only [savedDocs, handleSave]
    rw [hp]
    simp only [loadConfiguration]
    rw [hv]
    simp [jsOrString, hdm2]
  · intro k hv hne
    have hp :=
      applyEdit_ne_braveKey e (loadConfiguration c sec initialSettingsForm) hne
    rw [braveKeyOf] at hv
    simp only [Option.bind_eq_some] at hv
    obtain ⟨en, ⟨b, ⟨sv, ⟨m, hm, hs⟩, hb⟩, hen⟩, hk⟩ := hv
    have hload : (loadConfiguration c sec initialSettingsForm).braveKey = k := by
      rcases eq_or_ne k "" with rfl | hk0
      · simp [loadConfiguration, keepOrLoadKey, braveKeyOf, hm, hs, hb, hen,
          hk, initialSettingsForm]
      · simp [loadConfiguration, keepOrLoadKey, braveKeyOf, hm, hs, hb, hen,
          hk, hk0]
    simp [savedDocs, handleSave, braveKeyOf, hm, hs, hb, hen, hp, hload]
  · intro k hv hne
    have hp :=
      applyEdit_ne_bochaKey e (loadConfiguration c sec initialSettingsForm) hne
    rw [bochaKeyOf] at hv
    simp only [Option.bind_eq_some] at hv
    obtain ⟨en, ⟨b, ⟨sv, ⟨m, hm, hs⟩, hb⟩, hen⟩, hk⟩ := hv
    have hload : (loadConfiguration c sec initialSettingsForm).bochaKey = k := by
      rcases eq_or_ne k "" with rfl | hk0
      · simp [loadConfiguration, keepOrLoadKey, bochaKeyOf, hm, hs, hb, hen,
          hk, initialSettingsForm]
      · simp [loadConfiguration, keepOrLoadKey, bochaKeyOf, hm, hs, hb, hen,
          hk, hk0]
    simp [savedDocs, handleSave, bochaKeyOf, hm, hs, hb, hen, hp, hload]
  · intro o hv hne1 hne2
    have hp1 :=
      applyEdit_ne_openaiKey e (loadConfiguration c sec initialSettingsForm)
        hne1
    have hp2 :=
      applyEdit_ne_openaiBaseUrl e (loadConfiguration c sec initialSettingsForm)
        hne2
    obtain ⟨sak, sbu⟩ := o
    simp only [savedDocs, handleSave]
    rw [hp1, hp2]
    simp [loadConfiguration, hv]
  · intro a hv hne
    have hp :=
      applyEdit_ne_anthropicKey e (loadConfiguration c sec initialSettingsForm)
        hne
    obtain ⟨aak⟩ := a
    simp only [savedDocs, handleSave]
    rw [hp]
    simp [loadConfiguration, hv]

/-- Counterexample to claim C3 as stated: for the loaded documents
`zeroThresholdConfig`/`plainSecrets`, whose present document_segmentation
section has threshold 0, editing only the recognized search-server field and
saving rewrites the untouched document_segmentation field (0 becomes the
load-time `|| 50000` default), so a previously-present field does not
round-trip unchanged. -/
theorem C3_settings_roundtrip_counterexample :
    (savedDocs zeroThresholdConfig plainSecrets
        (SettingsEdit.setSearchServer "bocha-mcp")).1.document_segmentation ≠
      zeroThresholdConfig.document_segmentation ∧
    (savedDocs zeroThresholdConfig plainSecrets
        (SettingsEdit.setSearchServer "bocha-mcp")).1.document_segmentation =
      some { enabled := true, size_threshold_chars := 50000 } ∧
    (savedDocs zeroThresholdConfig plainSecrets
        (SettingsEdit.setSearchServer "bocha-mcp")).1.default_search_server =
      some "bocha-mcp" := by
  refine ⟨?_, ?_, ?_⟩ <;> decide

/-- Witness for the amended C3 at the concrete documents `sampleConfig` and
`sampleSecrets`, editing the default model. -/
theorem C3_settings_roundtrip_amended_witness :
    loadConfiguration
        (savedDocs sampleConfig sampleSecrets
          (SettingsEdit.setDefaultModel "openai/gpt-4o")).1
        (savedDocs sampleConfig sampleSecrets
          (SettingsEdit.setDefaultModel "openai/gpt-4o")).2
        (applyEdit (SettingsEdit.setDefaultModel "openai/gpt-4o")
          (loadConfiguration sampleConfig sampleSecrets initialSettingsForm)) =
      applyEdit (SettingsEdit.setDefaultModel "openai/gpt-4o")
        (loadConfiguration sampleConfig sampleSecrets initialSettingsForm) ∧
    (savedDocs sampleConfig sampleSecrets
        (SettingsEdit.setDefaultModel "openai/gpt-4o")).1.extra =
      sampleConfig.extra ∧
    (savedDocs sampleConfig sampleSecrets
        (SettingsEdit.setDefaultModel "openai/gpt-4o")).2.extra =
      sampleSecrets.extra ∧
    (savedDocs sampleConfig sampleSecrets
        (SettingsEdit.setDefaultModel "openai/gpt-4o")).1.default_search_server =
      some "brave" ∧
    braveKeyOf (savedDocs sampleConfig sampleSecrets
        (SettingsEdit.setDefaultModel "openai/gpt-4o")).1 = some "bk-123" := by
  have h := C3_settings_roundtrip_amended sampleConfig sampleSecrets
    (SettingsEdit.setDefaultModel "openai/gpt-4o")
    (by intro v hv; injection hv with hv; subst hv; decide)
    (by intro d hd; injection hd with hd; subst hd; decide)
    (by intro o ho; injection ho with ho; subst ho; decide)
    (by show ("openai/gpt-4o" : String) ≠ ""; decide)
  exact ⟨h.1, h.2.1, h.2.2.1,
    h.2.2.2.1 "brave" rfl (fun w hw => SettingsEdit.noConfusion hw),
    h.2.2.2.2.2.2.1 "bk-123" rfl (fun w hw => SettingsEdit.noConfusion hw)⟩
